import Mathlib

/-!
Shallow embedding of src/original_database.py: the `Database` connection
manager with master-replica support.  External effects (SQLAlchemy engine
creation, the SELECT 1 liveness probes, pool disposal) are modelled by an
`Env` record of outcomes; each operation returns its Python result
(`Except Err _`), the post-state, and the list of pool allocation and
disposal events performed by the call.
-/

/-- Identity of a backend: the master (primary) or the replica. -/
inductive Role
  | master
  | replica
  deriving DecidableEq, Repr

/-- A SQLAlchemy async engine: the pool handle bound to one backend URL.
Session factories record the engine object they were bound to at
creation time (`bind=` argument of async_sessionmaker). -/
structure Engine where
  role : Role
  url : String
  deriving DecidableEq, Repr

/-- Python exceptions the embedded code can raise. -/
inductive Err
  | keyError (key : String)      -- missing key in a config dict (f-string access)
  | engineError (r : Role)       -- create_async_engine raised
  | connectionError              -- a liveness probe (SELECT 1) raised
  | disposeError (r : Role)      -- engine.dispose() raised
  | notConnected                 -- RuntimeError "Database not connected"
  | noneNotCallable              -- calling a None session factory
  deriving DecidableEq, Repr

/-- Observable resource events: pool allocation by create_async_engine and
pool release by dispose(). -/
inductive Event
  | createPool (r : Role)
  | disposePool (r : Role)
  deriving DecidableEq, Repr

/-- A config dict restricted to the five keys the code reads.  `none` means
the key is absent from the dict; `some s` means the key maps to string `s`. -/
structure Config where
  host : Option String
  port : Option String
  username : Option String
  password : Option String
  database : Option String
  deriving DecidableEq, Repr

/-- The values present in the dict, as in Python `config.values()`. -/
def Config.values (c : Config) : List String :=
  [c.host, c.port, c.username, c.password, c.database].filterMap id

/-- Python `all(config.values())`: every present value is truthy
(a non-empty string).  On the empty dict this is `true` (all of []). -/
def Config.allTruthy (c : Config) : Bool :=
  c.values.all (fun v => v != "")

/-- _build_connection_string: the f-string reads username, password, host,
port, database in that order; the first absent key raises KeyError. -/
def buildConnectionString (c : Config) : Except Err String :=
  match c.username with
  | none => .error (.keyError "username")
  | some u =>
    match c.password with
    | none => .error (.keyError "password")
    | some p =>
      match c.host with
      | none => .error (.keyError "host")
      | some h =>
        match c.port with
        | none => .error (.keyError "port")
        | some po =>
          match c.database with
          | none => .error (.keyError "database")
          | some d =>
            .ok ("postgresql+asyncpg://" ++ u ++ ":" ++ p ++ "@" ++ h ++ ":"
                  ++ po ++ "/" ++ d)

/-- Outcomes of the external collaborator (SQLAlchemy / the database)
during one operation: whether each effect succeeds or raises. -/
structure Env where
  masterEngineOk : Bool
  replicaEngineOk : Bool
  masterProbeOk : Bool
  replicaProbeOk : Bool
  masterDisposeOk : Bool
  replicaDisposeOk : Bool
  deriving DecidableEq, Repr

/-- The `Database` object's fields.  Session factories are represented by
the engine they were bound to (`bind=` at creation); `none` is Python
`None`. -/
structure Database where
  master_config : Config
  replica_config : Config
  pool_size : Nat
  max_overflow : Nat
  pool_timeout : Nat
  pool_recycle : Nat
  master_engine : Option Engine
  replica_engine : Option Engine
  write_session_factory : Option Engine
  read_session_factory : Option Engine
  connected : Bool
  deriving DecidableEq, Repr

/-- __init__ with the default pool tuning arguments. -/
def Database.init (master_config replica_config : Config) : Database :=
  { master_config := master_config
    replica_config := replica_config
    pool_size := 10
    max_overflow := 20
    pool_timeout := 30
    pool_recycle := 3600
    master_engine := none
    replica_engine := none
    write_session_factory := none
    read_session_factory := none
    connected := false }

/-- connect(): builds the master engine, optionally the replica engine
(failures there are caught and leave replica_engine = None), binds the
write factory to the master engine and the read factory to the replica
engine if present else the master engine, then runs _test_connections:
the master probe failure propagates (re-raised by the outer except),
the replica probe failure is caught and sets replica_engine = None.
On full success _connected is set to True. -/
def Database.connect (db : Database) (env : Env) :
    Except Err Unit × Database × List Event :=
  match buildConnectionString db.master_config with
  | .error e => (.error e, db, [])
  | .ok masterUrl =>
    if env.masterEngineOk = false then
      (.error (.engineError .master), db, [])
    else
      let db1 : Database := { db with master_engine := some ⟨Role.master, masterUrl⟩ }
      let afterReplica : Database × List Event :=
        if db1.replica_config.allTruthy then
          match buildConnectionString db1.replica_config with
          | .error _ =>
            -- KeyError caught by the replica try/except: replica_engine = None
            ({ db1 with replica_engine := none }, [Event.createPool Role.master])
          | .ok replicaUrl =>
            if env.replicaEngineOk then
              ({ db1 with replica_engine := some ⟨Role.replica, replicaUrl⟩ },
                [Event.createPool Role.master, Event.createPool Role.replica])
            else
              ({ db1 with replica_engine := none }, [Event.createPool Role.master])
        else
          (db1, [Event.createPool Role.master])
      let db2 : Database := afterReplica.1
      let evs : List Event := afterReplica.2
      let db3 : Database := { db2 with write_session_factory := db2.master_engine }
      let readEngine : Option Engine :=
        match db3.replica_engine with
        | some e => some e
        | none => db3.master_engine
      let db4 : Database := { db3 with read_session_factory := readEngine }
      if env.masterProbeOk = false then
        (.error Err.connectionError, db4, evs)
      else
        let db5 : Database :=
          if db4.replica_engine.isSome && !env.replicaProbeOk then
            { db4 with replica_engine := none }
          else db4
        (.ok (), { db5 with connected := true }, evs)

/-- disconnect(): awaits master_engine.dispose() then replica_engine.dispose()
with no try/except, so a raised disposal propagates and the statements after
it (the other disposal and `_connected = False`) do not run.  Engine
references are NOT cleared. -/
def Database.disconnect (db : Database) (env : Env) :
    Except Err Unit × Database × List Event :=
  match db.master_engine with
  | some _ =>
    if env.masterDisposeOk = false then
      (.error (.disposeError .master), db, [])
    else
      match db.replica_engine with
      | some _ =>
        if env.replicaDisposeOk = false then
          (.error (.disposeError .replica), db, [Event.disposePool Role.master])
        else
          (.ok (), { db with connected := false },
            [Event.disposePool Role.master, Event.disposePool Role.replica])
      | none =>
        (.ok (), { db with connected := false }, [Event.disposePool Role.master])
  | none =>
    match db.replica_engine with
    | some _ =>
      if env.replicaDisposeOk = false then
        (.error (.disposeError .replica), db, [])
      else
        (.ok (), { db with connected := false }, [Event.disposePool Role.replica])
    | none =>
      (.ok (), { db with connected := false }, [])

/-- health_check() return value. -/
structure HealthReport where
  status : String
  master : Bool
  replica : Bool
  deriving DecidableEq, Repr

/-- health_check(): pure read of the current fields; bool(engine) is
truthiness of the Optional engine reference. -/
def Database.health_check (db : Database) : HealthReport :=
  { status := if db.connected then "healthy" else "unhealthy"
    master := db.master_engine.isSome
    replica := db.replica_engine.isSome }

/-- get_session(operation_type): raises RuntimeError when not connected;
routes "read" to the read factory and every other value to the write
factory.  The session handle is identified with the engine its factory
was bound to. -/
def Database.get_session (db : Database) (operation_type : String) :
    Except Err Engine :=
  if db.connected = false then
    .error .notConnected
  else if operation_type = "read" then
    match db.read_session_factory with
    | some e => .ok e
    | none => .error .noneNotCallable
  else
    match db.write_session_factory with
    | some e => .ok e
    | none => .error .noneNotCallable

/-- get_session() with the argument omitted: the Python default is "write". -/
def Database.get_session_default (db : Database) : Except Err Engine :=
  db.get_session "write"

/-- One API call, with the environment outcomes it runs under. -/
inductive Op
  | connectOp (env : Env)
  | disconnectOp (env : Env)
  | getSessionOp (kind : String)
  | healthCheckOp

/-- State transformation of one call (get_session and health_check do not
mutate the object). -/
def applyOp (db : Database) (op : Op) : Database :=
  match op with
  | .connectOp env => (db.connect env).2.1
  | .disconnectOp env => (db.disconnect env).2.1
  | .getSessionOp _ => db
  | .healthCheckOp => db

/-- The state reached from a freshly constructed manager by a sequence of
API calls. -/
def reachable (mc rc : Config) (ops : List Op) : Database :=
  ops.foldl applyOp (Database.init mc rc)

/-! Concrete fixtures used by witnesses and counterexamples. -/

/-- Master config of the spec scenario: all five keys present and truthy. -/
def mcEx : Config :=
  { host := some "db1", port := some "5432", username := some "usr",
    password := some "pw", database := some "app" }

/-- A fully populated replica config. -/
def rcEx : Config :=
  { host := some "db2", port := some "5432", username := some "usr",
    password := some "pw", database := some "app" }

/-- The empty dict: no key present. -/
def rcEmpty : Config :=
  { host := none, port := none, username := none, password := none,
    database := none }

/-- Master config with every key present but an empty password value. -/
def mcEmptyPass : Config :=
  { host := some "db1", port := some "5432", username := some "usr",
    password := some "", database := some "app" }

/-- Master config missing the username key. -/
def mcNoUser : Config :=
  { host := some "db1", port := some "5432", username := none,
    password := some "pw", database := some "app" }

def envAllOk : Env :=
  { masterEngineOk := true, replicaEngineOk := true, masterProbeOk := true,
    replicaProbeOk := true, masterDisposeOk := true, replicaDisposeOk := true }

/-- Replica liveness probe raises; everything else succeeds. -/
def envRPF : Env := { envAllOk with replicaProbeOk := false }

/-- Master liveness probe raises; everything else succeeds. -/
def envMPF : Env := { envAllOk with masterProbeOk := false }

/-- master_engine.dispose() raises; everything else succeeds. -/
def envMDF : Env := { envAllOk with masterDisposeOk := false }

def mUrlEx : String := "postgresql+asyncpg://usr:pw@db1:5432/app"

def rUrlEx : String := "postgresql+asyncpg://usr:pw@db2:5432/app"

def mEngEx : Engine := ⟨Role.master, mUrlEx⟩

def rEngEx : Engine := ⟨Role.replica, rUrlEx⟩

/-- State after a fully successful connect with a healthy replica. -/
def dbConnEx : Database := ((Database.init mcEx rcEx).connect envAllOk).2.1

/-- True when the event is a pool allocation (not a disposal). -/
def isCreateEvent : Event → Bool
  | .createPool _ => true
  | .disposePool _ => false

/-- The call performed no pool disposal. -/
def noDisposals (evs : List Event) : Bool :=
  evs.all isCreateEvent

/-! Theorems. -/

/-- C1: the spec says that after a replica-probe failure during connect(),
read sessions resolve to the Primary.  The code contradicts its own
"falling back to master" log and its get_session docstring: connect()
succeeds and health_check reports replica = false, yet get_session("read")
returns a session bound to the replica engine, because the read factory
was bound before the probe and is never rebound. -/
theorem c1_replica_probe_failure_reads_still_bound_to_replica :
    (((Database.init mcEx rcEx).connect envRPF).1 = Except.ok ()) ∧
    ((((Database.init mcEx rcEx).connect envRPF).2.1).connected = true) ∧
    ((((Database.init mcEx rcEx).connect envRPF).2.1).health_check.replica = false) ∧
    ((((Database.init mcEx rcEx).connect envRPF).2.1).get_session "read"
      = Except.ok rEngEx) ∧
    rEngEx.role = Role.replica ∧
    ((((Database.init mcEx rcEx).connect envRPF).2.1).get_session "write"
      = Except.ok mEngEx) ∧
    mEngEx.role = Role.master :=
  ⟨rfl, rfl, rfl, rfl, rfl, rfl, rfl⟩

/-- C4: get_session with any operation type, called while the manager is
not connected (before any connect() succeeded or after disconnect()),
raises RuntimeError("Database not connected") and yields no session. -/
theorem c4_get_session_not_connected_errors (db : Database) (k : String)
    (h : db.connected = false) :
    db.get_session k = Except.error Err.notConnected := by
  unfold Database.get_session
  simp [h]

/-- C4 witness: a freshly constructed manager is disconnected and a read
session request fails with the not-connected error. -/
theorem c4_witness :
    (Database.init mcEx rcEx).connected = false ∧
    (Database.init mcEx rcEx).get_session "read" = Except.error Err.notConnected :=
  ⟨rfl, c4_get_session_not_connected_errors (Database.init mcEx rcEx) "read" rfl⟩

/-- connect() never disposes a pool: no code path of connect() or
_test_connections invokes dispose(). -/
lemma connect_no_disposals (db : Database) (env : Env) :
    noDisposals (db.connect env).2.2 = true := by
  cases hb : buildConnectionString db.master_config <;>
  cases hm : env.masterEngineOk <;>
  cases ha : db.replica_config.allTruthy <;>
  cases hr : buildConnectionString db.replica_config <;>
  cases he : env.replicaEngineOk <;>
  cases hp : env.masterProbeOk <;>
  simp [Database.connect, hb, hm, ha, hr, he, hp, noDisposals, isCreateEvent]

/-- A failing connect() leaves the _connected flag as it was. -/
lemma connect_error_connected_unchanged (db : Database) (env : Env) (e : Err)
    (h : (db.connect env).1 = Except.error e) :
    (db.connect env).2.1.connected = db.connected := by
  cases hb : buildConnectionString db.master_config <;>
  cases hm : env.masterEngineOk <;>
  cases ha : db.replica_config.allTruthy <;>
  cases hr : buildConnectionString db.replica_config <;>
  cases he : env.replicaEngineOk <;>
  cases hp : env.masterProbeOk <;>
  simp_all [Database.connect, hb, hm, ha, hr, he, hp]

/-- A successful connect() ends connected with a master engine present. -/
lemma connect_ok_connected_and_master (db : Database) (env : Env)
    (h : (db.connect env).1 = Except.ok ()) :
    (db.connect env).2.1.connected = true ∧
    (db.connect env).2.1.master_engine.isSome = true := by
  cases hb : buildConnectionString db.master_config <;>
  cases hm : env.masterEngineOk <;>
  cases ha : db.replica_config.allTruthy <;>
  cases hr : buildConnectionString db.replica_config <;>
  cases he : env.replicaEngineOk <;>
  cases hp : env.masterProbeOk <;>
  cases hre : db.replica_engine <;>
  cases hq : env.replicaProbeOk <;>
  simp_all [Database.connect, hb, hm, ha, hr, he, hp, hre, hq]

/-- C2 counterexample: with master and replica pools opened and the master
liveness probe raising, connect() propagates the error but disposes
nothing — the call's events are exactly the two pool allocations and the
master engine reference is still held — refuting the claim that every
pool opened during the failing connect() is disposed before the error
surfaces. -/
theorem c2_counterexample_failed_connect_leaves_pools_undisposed :
    (((Database.init mcEx rcEx).connect envMPF).1 = Except.error Err.connectionError) ∧
    (((Database.init mcEx rcEx).connect envMPF).2.2
      = [Event.createPool Role.master, Event.createPool Role.replica]) ∧
    ((((Database.init mcEx rcEx).connect envMPF).2.1).master_engine = some mEngEx) ∧
    ((((Database.init mcEx rcEx).connect envMPF).2.1).replica_engine = some rEngEx) :=
  ⟨rfl, rfl, rfl, rfl⟩

/-- C2 amended: when connect() fails the exception propagates and the
manager does not become connected (the flag is unchanged, so a fresh
manager stays disconnected), but the pools opened during the call are NOT
disposed — connect() performs no disposal on any path, so the opened
engines remain allocated. -/
theorem c2_failed_connect_propagates_but_disposes_nothing
    (db : Database) (env : Env) (e : Err)
    (h : (db.connect env).1 = Except.error e) :
    (db.connect env).2.1.connected = db.connected ∧
    noDisposals (db.connect env).2.2 = true :=
  ⟨connect_error_connected_unchanged db env e h, connect_no_disposals db env⟩

/-- C2 witness: the amended theorem applied to the master-probe-failure
run on a fresh manager. -/
theorem c2_amended_witness :
    (((Database.init mcEx rcEx).connect envMPF).1 = Except.error Err.connectionError) ∧
    (((Database.init mcEx rcEx).connect envMPF).2.1.connected
      = (Database.init mcEx rcEx).connected ∧
     noDisposals ((Database.init mcEx rcEx).connect envMPF).2.2 = true) :=
  ⟨rfl, c2_failed_connect_propagates_but_disposes_nothing
    (Database.init mcEx rcEx) envMPF Err.connectionError rfl⟩

/-- C3 counterexample: a master config whose password is present but empty
fails the spec's validation requirement, yet connect() succeeds (there is
no validation and no ConfigurationError in the code), refuting the claim
that such configs fail with ConfigurationError. -/
theorem c3_counterexample_empty_password_connect_succeeds :
    mcEmptyPass.password = some "" ∧
    (((Database.init mcEmptyPass rcEx).connect envAllOk).1 = Except.ok ()) ∧
    ((((Database.init mcEmptyPass rcEx).connect envAllOk).2.1).connected = true) :=
  ⟨rfl, rfl, rfl⟩

/-- C3 amended: connect() performs no field validation.  A master config
missing a required key raises KeyError while the connection string is
built, before any pool is opened: the state is returned unchanged and no
resource event occurs.  Configs whose fields are present but empty are
not rejected. -/
theorem c3_missing_master_key_fails_before_any_pool
    (db : Database) (env : Env) (e : Err)
    (h : buildConnectionString db.master_config = Except.error e) :
    db.connect env = (Except.error e, db, []) := by
  simp [Database.connect, h]

/-- C3 witness: the amended theorem applied to a master config missing the
username key. -/
theorem c3_amended_witness :
    buildConnectionString (Database.init mcNoUser rcEx).master_config
      = Except.error (Err.keyError "username") ∧
    (Database.init mcNoUser rcEx).connect envAllOk
      = (Except.error (Err.keyError "username"), Database.init mcNoUser rcEx, []) :=
  ⟨rfl, c3_missing_master_key_fails_before_any_pool
    (Database.init mcNoUser rcEx) envAllOk (Err.keyError "username") rfl⟩

/-- C5 counterexample: from a connected state with both engines, a raised
master dispose aborts disconnect() before the replica dispose is attempted
(no disposal event at all is recorded for the call) and _connected stays
true — refuting independence of the two disposals and the claim that the
state becomes disconnected in every case. -/
theorem c5_counterexample_master_dispose_failure_blocks_replica :
    (dbConnEx.master_engine = some mEngEx) ∧
    (dbConnEx.replica_engine = some rEngEx) ∧
    ((dbConnEx.disconnect envMDF).1 = Except.error (Err.disposeError Role.master)) ∧
    ((dbConnEx.disconnect envMDF).2.2 = []) ∧
    ((dbConnEx.disconnect envMDF).2.1.connected = true) :=
  ⟨rfl, rfl, rfl, rfl, rfl⟩

/-- C5 amended: disconnect() disposes the master engine and then the
replica engine sequentially with no exception handling, so a disposal
failure skips the remaining disposal and leaves the state connected; when
every disposal succeeds, disconnect() raises no error and sets the state
to disconnected, and calling it again immediately is also error-free and
leaves the state disconnected. -/
theorem c5_disconnect_ok_and_idempotent_when_disposals_succeed
    (db : Database) (env : Env)
    (h1 : env.masterDisposeOk = true) (h2 : env.replicaDisposeOk = true) :
    ((db.disconnect env).1 = Except.ok ()) ∧
    ((db.disconnect env).2.1.connected = false) ∧
    (((db.disconnect env).2.1.disconnect env).1 = Except.ok ()) ∧
    (((db.disconnect env).2.1.disconnect env).2.1.connected = false) := by
  cases hme : db.master_engine <;> cases hre : db.replica_engine <;>
  simp [Database.disconnect, h1, h2, hme, hre]

/-- C5 witness: the amended theorem applied to the connected example state
with an environment where both disposals succeed. -/
theorem c5_amended_witness :
    envAllOk.masterDisposeOk = true ∧ envAllOk.replicaDisposeOk = true ∧
    (((dbConnEx.disconnect envAllOk).1 = Except.ok ()) ∧
     ((dbConnEx.disconnect envAllOk).2.1.connected = false) ∧
     (((dbConnEx.disconnect envAllOk).2.1.disconnect envAllOk).1 = Except.ok ()) ∧
     (((dbConnEx.disconnect envAllOk).2.1.disconnect envAllOk).2.1.connected = false)) :=
  ⟨rfl, rfl, c5_disconnect_ok_and_idempotent_when_disposals_succeed dbConnEx envAllOk rfl rfl⟩

/-- C7 counterexample: in a connected state whose read factory is bound to
the replica, get_session "foo" (a kind that is neither "read" nor "write")
returns the write-factory session bound to the master, not a read-factory
session — refuting the claim that every kind other than "write" draws from
the read factory. -/
theorem c7_counterexample_other_kind_uses_write_factory :
    (dbConnEx.read_session_factory = some rEngEx) ∧
    (dbConnEx.get_session "foo" = Except.ok mEngEx) ∧
    (dbConnEx.get_session "read" = Except.ok rEngEx) ∧
    mEngEx ≠ rEngEx := by
  refine ⟨rfl, rfl, rfl, ?_⟩
  decide

/-- C7 amended: in the connected state a session is drawn from the read
factory exactly when the kind is "read", and from the write factory for
every other kind, including the omitted-argument default "write". -/
theorem c7_read_kind_reads_other_kinds_write
    (db : Database) (we re : Engine) (k : String)
    (hc : db.connected = true)
    (hw : db.write_session_factory = some we)
    (hr : db.read_session_factory = some re)
    (hk : k ≠ "read") :
    (db.get_session "read" = Except.ok re) ∧
    (db.get_session k = Except.ok we) ∧
    (db.get_session_default = Except.ok we) := by
  refine ⟨?_, ?_, ?_⟩ <;>
  simp [Database.get_session, Database.get_session_default, hc, hw, hr, hk]

/-- C7 witness: the amended theorem applied to the connected example state
with kind "write". -/
theorem c7_amended_witness :
    (dbConnEx.connected = true ∧ dbConnEx.write_session_factory = some mEngEx ∧
     dbConnEx.read_session_factory = some rEngEx ∧ ("write" : String) ≠ "read") ∧
    ((dbConnEx.get_session "read" = Except.ok rEngEx) ∧
     (dbConnEx.get_session "write" = Except.ok mEngEx) ∧
     (dbConnEx.get_session_default = Except.ok mEngEx)) :=
  ⟨⟨rfl, rfl, rfl, by decide⟩,
   c7_read_kind_reads_other_kinds_write dbConnEx mEngEx rEngEx "write"
     rfl rfl rfl (by decide)⟩

/-- C8: with any master config whose connection string builds and any
replica config missing the username key (in particular the entirely empty
dict, where all of the empty values-list is true so the replica branch is
taken and its KeyError is caught), connect() succeeds master-only:
health_check reports healthy with master true and replica false, and read
and write sessions are both bound to the master engine. -/
theorem c8_empty_replica_config_master_only
    (mc rc : Config) (env : Env) (u : String)
    (hm : buildConnectionString mc = Except.ok u)
    (hu : rc.username = none)
    (h1 : env.masterEngineOk = true)
    (h2 : env.masterProbeOk = true) :
    (((Database.init mc rc).connect env).1 = Except.ok ()) ∧
    ((((Database.init mc rc).connect env).2.1).health_check
      = { status := "healthy", master := true, replica := false }) ∧
    ((((Database.init mc rc).connect env).2.1).get_session "read"
      = Except.ok ⟨Role.master, u⟩) ∧
    ((((Database.init mc rc).connect env).2.1).get_session "write"
      = Except.ok ⟨Role.master, u⟩) := by
  have hbr : buildConnectionString rc = Except.error (Err.keyError "username") := by
    simp [buildConnectionString, hu]
  cases ha : rc.allTruthy <;>
  refine ⟨?_, ?_, ?_, ?_⟩ <;>
  simp [Database.connect, Database.init, Database.health_check,
    Database.get_session, hm, hbr, h1, h2, ha]

/-- C8 witness: the spec scenario, master config {db1,5432,usr,pw,app} and
the empty replica dict. -/
theorem c8_witness :
    (buildConnectionString mcEx = Except.ok mUrlEx ∧ rcEmpty.username = none ∧
     envAllOk.masterEngineOk = true ∧ envAllOk.masterProbeOk = true) ∧
    ((((Database.init mcEx rcEmpty).connect envAllOk).1 = Except.ok ()) ∧
     ((((Database.init mcEx rcEmpty).connect envAllOk).2.1).health_check
       = { status := "healthy", master := true, replica := false }) ∧
     ((((Database.init mcEx rcEmpty).connect envAllOk).2.1).get_session "read"
       = Except.ok ⟨Role.master, mUrlEx⟩) ∧
     ((((Database.init mcEx rcEmpty).connect envAllOk).2.1).get_session "write"
       = Except.ok ⟨Role.master, mUrlEx⟩)) :=
  ⟨⟨rfl, rfl, rfl, rfl⟩,
   c8_empty_replica_config_master_only mcEx rcEmpty envAllOk mUrlEx rfl rfl rfl rfl⟩

/-- C9 counterexample: in the replica-probe-failure run the call's events
are exactly the two pool allocations — no disposal event occurs — yet the
replica engine reference is dropped to None, refuting the claim that the
replica pool's dispose operation is invoked before the replica is
discarded. -/
theorem c9_counterexample_replica_discarded_without_dispose :
    ((((Database.init mcEx rcEx).connect envRPF).2.2)
      = [Event.createPool Role.master, Event.createPool Role.replica]) ∧
    ((((Database.init mcEx rcEx).connect envRPF).2.1).replica_engine = none) ∧
    (((Database.init mcEx rcEx).connect envRPF).1 = Except.ok ()) :=
  ⟨rfl, rfl, rfl⟩

/-- C9 amended: when the replica liveness probe fails during connect(),
_test_connections merely sets replica_engine to None; dispose is never
invoked on the replica pool opened earlier in the call (the call's events
are the two allocations and nothing else), so the partially-opened pool is
leaked. -/
theorem c9_replica_probe_failure_drops_pool_without_dispose
    (db : Database) (env : Env) (u v : String)
    (hm : buildConnectionString db.master_config = Except.ok u)
    (ha : db.replica_config.allTruthy = true)
    (hr : buildConnectionString db.replica_config = Except.ok v)
    (h1 : env.masterEngineOk = true)
    (h2 : env.replicaEngineOk = true)
    (h3 : env.masterProbeOk = true)
    (h4 : env.replicaProbeOk = false) :
    ((db.connect env).1 = Except.ok ()) ∧
    ((db.connect env).2.1.replica_engine = none) ∧
    ((db.connect env).2.2
      = [Event.createPool Role.master, Event.createPool Role.replica]) := by
  refine ⟨?_, ?_, ?_⟩ <;>
  simp [Database.connect, hm, ha, hr, h1, h2, h3, h4]

/-- C9 witness: the amended theorem applied to the fresh manager with both
configs populated and an environment where only the replica probe raises. -/
theorem c9_amended_witness :
    (buildConnectionString mcEx = Except.ok mUrlEx ∧ rcEx.allTruthy = true ∧
     buildConnectionString rcEx = Except.ok rUrlEx ∧ envRPF.replicaProbeOk = false) ∧
    ((((Database.init mcEx rcEx).connect envRPF).1 = Except.ok ()) ∧
     ((((Database.init mcEx rcEx).connect envRPF).2.1).replica_engine = none) ∧
     ((((Database.init mcEx rcEx).connect envRPF).2.2)
       = [Event.createPool Role.master, Event.createPool Role.replica])) :=
  ⟨⟨rfl, rfl, rfl, rfl⟩,
   c9_replica_probe_failure_drops_pool_without_dispose
     (Database.init mcEx rcEx) envRPF mUrlEx rUrlEx rfl rfl rfl rfl rfl rfl rfl⟩

/-- C10: after a successful connect() followed by a disconnect() whose
disposals succeed, the only field disconnect() changed is the _connected
flag — engine references and both session factories survive — so
health_check reports status "unhealthy" while master is still true and
replica is still true exactly when a replica engine had been kept: the
master/replica booleans report that a pool object was ever created, not
current connectivity. -/
theorem c10_disconnect_only_clears_connected_flag
    (mc rc : Config) (envC envD : Env)
    (h : ((Database.init mc rc).connect envC).1 = Except.ok ())
    (h1 : envD.masterDisposeOk = true) (h2 : envD.replicaDisposeOk = true) :
    ((((Database.init mc rc).connect envC).2.1).disconnect envD).1 = Except.ok () ∧
    ((((Database.init mc rc).connect envC).2.1).disconnect envD).2.1
      = { ((Database.init mc rc).connect envC).2.1 with connected := false } ∧
    (((((Database.init mc rc).connect envC).2.1).disconnect envD).2.1).health_check
      = { status := "unhealthy", master := true,
          replica := (((Database.init mc rc).connect envC).2.1).replica_engine.isSome } := by
  have hmast := (connect_ok_connected_and_master (Database.init mc rc) envC h).2
  cases hme : (((Database.init mc rc).connect envC).2.1).master_engine <;>
  cases hre : (((Database.init mc rc).connect envC).2.1).replica_engine <;>
  simp_all [Database.disconnect, Database.health_check, h1, h2]

/-- C10 witness: the theorem applied to the successful connect with a
healthy replica followed by a clean disconnect. -/
theorem c10_witness :
    ((((Database.init mcEx rcEx).connect envAllOk).1 = Except.ok ()) ∧
     envAllOk.masterDisposeOk = true ∧ envAllOk.replicaDisposeOk = true) ∧
    (((((Database.init mcEx rcEx).connect envAllOk).2.1).disconnect envAllOk).1
       = Except.ok () ∧
     ((((Database.init mcEx rcEx).connect envAllOk).2.1).disconnect envAllOk).2.1
       = { ((Database.init mcEx rcEx).connect envAllOk).2.1 with connected := false } ∧
     (((((Database.init mcEx rcEx).connect envAllOk).2.1).disconnect envAllOk).2.1).health_check
       = { status := "unhealthy", master := true,
           replica := (((Database.init mcEx rcEx).connect envAllOk).2.1).replica_engine.isSome }) :=
  ⟨⟨rfl, rfl, rfl⟩,
   c10_disconnect_only_clears_connected_flag mcEx rcEx envAllOk envAllOk rfl rfl rfl⟩

/-- The optional engine, when present, is the master-role engine. -/
def boundToMaster : Option Engine → Bool
  | none => true
  | some e => e.role == Role.master

/-- Invariant: the master engine reference and the write session factory,
whenever set, hold a master-role engine. -/
def writeMasterInv (db : Database) : Bool :=
  boundToMaster db.master_engine && boundToMaster db.write_session_factory

lemma connect_preserves_writeMasterInv (db : Database) (env : Env)
    (h : writeMasterInv db = true) :
    writeMasterInv ((db.connect env).2.1) = true := by
  cases hb : buildConnectionString db.master_config <;>
  cases hm : env.masterEngineOk <;>
  cases ha : db.replica_config.allTruthy <;>
  cases hr : buildConnectionString db.replica_config <;>
  cases he : env.replicaEngineOk <;>
  cases hp : env.masterProbeOk <;>
  cases hre : db.replica_engine <;>
  cases hq : env.replicaProbeOk <;>
  simp_all [Database.connect, writeMasterInv, boundToMaster]

lemma disconnect_preserves_writeMasterInv (db : Database) (env : Env)
    (h : writeMasterInv db = true) :
    writeMasterInv ((db.disconnect env).2.1) = true := by
  cases hme : db.master_engine <;>
  cases hre : db.replica_engine <;>
  cases h1 : env.masterDisposeOk <;>
  cases h2 : env.replicaDisposeOk <;>
  simp_all [Database.disconnect, writeMasterInv, boundToMaster]

lemma applyOp_preserves_writeMasterInv (db : Database) (op : Op)
    (h : writeMasterInv db = true) :
    writeMasterInv (applyOp db op) = true := by
  cases op with
  | connectOp env => exact connect_preserves_writeMasterInv db env h
  | disconnectOp env => exact disconnect_preserves_writeMasterInv db env h
  | getSessionOp k => exact h
  | healthCheckOp => exact h

lemma foldl_preserves_writeMasterInv (ops : List Op) :
    ∀ db : Database, writeMasterInv db = true →
      writeMasterInv (ops.foldl applyOp db) = true := by
  induction ops with
  | nil => intro db h; exact h
  | cons op rest ih =>
    intro db h
    exact ih (applyOp db op) (applyOp_preserves_writeMasterInv db op h)

lemma reachable_writeMasterInv (mc rc : Config) (ops : List Op) :
    writeMasterInv (reachable mc rc ops) = true := by
  apply foldl_preserves_writeMasterInv
  rfl

/-- C6: in every state reachable from a fresh manager by any sequence of
connect, disconnect, get_session and health_check calls under any
environment outcomes, the write session factory — whenever it is set — is
bound to a master-role engine, and a write session handle obtained by
get_session "write" is never bound to the replica. -/
theorem c6_write_sessions_never_resolve_to_replica
    (mc rc : Config) (ops : List Op) (e : Engine) :
    ((reachable mc rc ops).write_session_factory = some e → e.role = Role.master) ∧
    ((reachable mc rc ops).get_session "write" = Except.ok e → e.role = Role.master) := by
  have hinv := reachable_writeMasterInv mc rc ops
  unfold writeMasterInv at hinv
  rw [Bool.and_eq_true] at hinv
  have hwf : ∀ w, (reachable mc rc ops).write_session_factory = some w →
      w.role = Role.master := by
    intro w hw
    have := hinv.2
    rw [hw] at this
    simpa [boundToMaster] using this
  refine ⟨hwf e, ?_⟩
  intro hget
  unfold Database.get_session at hget
  cases hc : (reachable mc rc ops).connected with
  | false => simp [hc] at hget
  | true =>
    cases hwfac : (reachable mc rc ops).write_session_factory with
    | none => simp [hc, hwfac] at hget
    | some w =>
      simp [hc, hwfac] at hget
      exact hget ▸ hwf w hwfac

/-- C6 witness: after one successful connect the write factory holds the
master engine, and the theorem yields that its role is master. -/
theorem c6_witness :
    ((reachable mcEx rcEx [Op.connectOp envAllOk]).write_session_factory
      = some mEngEx) ∧
    mEngEx.role = Role.master :=
  ⟨rfl,
   (c6_write_sessions_never_resolve_to_replica mcEx rcEx [Op.connectOp envAllOk]
     mEngEx).1 rfl⟩
